import Mathlib

/-!
Shallow embedding of the PYroclast vkBasalt installer
(`src/v1.0_Installer.py`) for verification.

Modelling conventions:
* Python strings are Lean `String`; the helper functions below reproduce
  the exact Python string operations used by the script
  (`str.split()`, `str.splitlines()`, `str.split(":", 1)`, `str.strip()`,
  `str.lower()`, substring membership `in`).
* The outside world (PATH lookups, `platform.machine()`, subprocess exit
  status and captured output, the already-parsed distro detection result,
  and the result of the presence heuristic `is_vkbasalt_installed`) is an
  explicit environment record `Env`.
* A subprocess started with `subprocess.check_output` can succeed with
  output, fail with a nonzero exit (raising `CalledProcessError`), or fail
  because the executable does not exist (raising `FileNotFoundError`);
  the type `Subp` distinguishes the three.
* Fallible Python code is modelled with `PyResult`: normal return or an
  escaping exception.
* Observable behaviour is a trace of `Event`s: architecture-gate checks,
  `subprocess.run` invocations, `subprocess.check_output` invocations, the
  presence check, selected log messages, and the hand-off to the
  provisioning stage (`setup_vkbasalt_config` / `create_pyroclast_directories`
  / `prompt_and_download_assets`, which the script always runs together).
-/

namespace Installer

/-- Python `needle in hay` on lists of characters: substring containment. -/
def listInfix (needle : List Char) : List Char → Bool
  | [] => needle.isEmpty
  | c :: rest => needle.isPrefixOf (c :: rest) || listInfix needle rest

/-- Python substring membership `needle in hay` on strings. -/
def strContains (hay needle : String) : Bool :=
  listInfix needle.data hay.data

/-- Python `str.strip()` with no argument: drop leading and trailing
whitespace (the inputs here are ASCII). -/
def pyTrim (s : String) : String :=
  String.mk
    (((s.data.dropWhile Char.isWhitespace).reverse.dropWhile
      Char.isWhitespace).reverse)

/-- Python `str.lower()` (the inputs here are ASCII). -/
def pyLower (s : String) : String :=
  String.mk (s.data.map Char.toLower)

/-- Python `str.startswith(pre)`. -/
def pyStartsWith (s pre : String) : Bool :=
  pre.data.isPrefixOf s.data

/-- Accumulator worker for `pySplitWs`. -/
def splitWsAux : List Char → List Char → List String
  | [], acc => if acc.isEmpty then [] else [String.mk acc.reverse]
  | c :: rest, acc =>
    if c.isWhitespace then
      if acc.isEmpty then splitWsAux rest []
      else String.mk acc.reverse :: splitWsAux rest []
    else splitWsAux rest (c :: acc)

/-- Python `str.split()` with no argument: split on whitespace runs,
dropping empty pieces. -/
def pySplitWs (s : String) : List String :=
  splitWsAux s.data []

/-- Accumulator worker for `pySplitlines`. -/
def splitlinesAux : List Char → List Char → List String
  | [], acc => if acc.isEmpty then [] else [String.mk acc.reverse]
  | c :: rest, acc =>
    if c = '\n' then String.mk acc.reverse :: splitlinesAux rest []
    else splitlinesAux rest (c :: acc)

/-- Python `str.splitlines()` restricted to `\n` separators (the outputs
modelled here use only `\n` line endings). -/
def pySplitlines (s : String) : List String :=
  splitlinesAux s.data []

/-- Characters after the first colon, or `none` when there is none. -/
def afterFirstColonChars : List Char → Option (List Char)
  | [] => none
  | c :: rest => if c = ':' then some rest else afterFirstColonChars rest

/-- Python `s.split(":", 1)[1]`: the text after the first colon, or `none`
(an `IndexError`) when the string has no colon. -/
def afterFirstColon (s : String) : Option String :=
  (afterFirstColonChars s.data).map String.mk

/-- Exceptions that can escape the modelled Python functions. -/
inductive PyExc where
  | calledProcessError
  | fileNotFound
  | nameError
  | indexError
deriving DecidableEq

/-- Result of running a piece of Python code: normal return or an escaping
exception. -/
inductive PyResult (α : Type) where
  | ret (a : α)
  | exc (e : PyExc)
deriving DecidableEq

/-- Outcome of one `subprocess.check_output` call. -/
inductive Subp where
  | ok (out : String)
  | calledProcessError
  | fileNotFound
deriving DecidableEq

/-- Outcome of one `subprocess.run(..., check=True)` call: exit zero,
nonzero exit (raising `CalledProcessError`), or executable missing
(raising `FileNotFoundError`, which no handler in this script catches). -/
inductive RunRes where
  | ok
  | calledProcessError
  | fileNotFound
deriving DecidableEq

/-- Observable events of a run. -/
inductive Event where
  | archCheck (m : String)
  | runCmd (argv : List String)
  | queryCmd (argv : List String)
  | presenceCheck
  | logMsg (s : String)
  | provision
deriving DecidableEq

/-- The external world as seen by the script: PATH resolution
(`shutil.which`), the machine architecture (`platform.machine()`), the
three-way outcome of `subprocess.run(..., check=True)` per argument
vector (exit zero, nonzero exit, missing executable), the outcome of
`subprocess.check_output` per argument vector, the distro string computed
by `detect_distro()`, and the boolean computed by the presence heuristic
`is_vkbasalt_installed()`. -/
structure Env where
  which : String → Bool
  machine : String
  runRes : List String → RunRes
  checkOutput : List String → Subp
  detectedDistro : String
  installed : Bool

/-- The `subprocess.run` argument vectors emitted by an event trace. -/
def runCmds (tr : List Event) : List (List String) :=
  tr.filterMap (fun e => match e with | .runCmd c => some c | _ => none)

/-- Model of `is_vkbasalt_up_to_date_with_aur` (lines 145-164).  The
Python body runs `[helper, "-Q", "vkbasalt"]` and `[helper, "-Si",
"vkbasalt"]` through `subprocess.check_output` inside a try whose only
handler is `except subprocess.CalledProcessError: return False`.  A
`FileNotFoundError` (helper executable missing) is not caught; the
installed version is `output.strip().split()[1]` (an uncaught
`IndexError` when there are fewer than two tokens); the latest version
comes from the first line of the second output whose lowercased text
starts with "version" (taking `line.split(":", 1)[1].strip()`, an
uncaught `IndexError` when that line has no colon); if no line matches,
the comparison `installed == latest` raises an uncaught
`UnboundLocalError`, a subclass of `NameError`. -/
def is_vkbasalt_up_to_date_with_aur (env : Env) (aur_helper : String) :
    PyResult Bool × List Event :=
  match env.checkOutput [aur_helper, "-Q", "vkbasalt"] with
  | .calledProcessError =>
    (.ret false, [.queryCmd [aur_helper, "-Q", "vkbasalt"]])
  | .fileNotFound =>
    (.exc .fileNotFound, [.queryCmd [aur_helper, "-Q", "vkbasalt"]])
  | .ok out1 =>
    match (pySplitWs (pyTrim out1)).get? 1 with
    | none => (.exc .indexError, [.queryCmd [aur_helper, "-Q", "vkbasalt"]])
    | some installed =>
      match env.checkOutput [aur_helper, "-Si", "vkbasalt"] with
      | .calledProcessError =>
        (.ret false, [.queryCmd [aur_helper, "-Q", "vkbasalt"],
          .queryCmd [aur_helper, "-Si", "vkbasalt"]])
      | .fileNotFound =>
        (.exc .fileNotFound, [.queryCmd [aur_helper, "-Q", "vkbasalt"],
          .queryCmd [aur_helper, "-Si", "vkbasalt"]])
      | .ok out2 =>
        match (pySplitlines out2).find?
            (fun l => pyStartsWith (pyLower l) "version") with
        | none =>
          (.exc .nameError, [.queryCmd [aur_helper, "-Q", "vkbasalt"],
            .queryCmd [aur_helper, "-Si", "vkbasalt"]])
        | some line =>
          match afterFirstColon line with
          | none =>
            (.exc .indexError, [.queryCmd [aur_helper, "-Q", "vkbasalt"],
              .queryCmd [aur_helper, "-Si", "vkbasalt"]])
          | some rest =>
            if installed = pyTrim rest then
              (.ret true, [.queryCmd [aur_helper, "-Q", "vkbasalt"],
                .queryCmd [aur_helper, "-Si", "vkbasalt"],
                .logMsg ("vkbasalt is already the latest version: "
                  ++ installed)])
            else
              (.ret false, [.queryCmd [aur_helper, "-Q", "vkbasalt"],
                .queryCmd [aur_helper, "-Si", "vkbasalt"],
                .logMsg ("vkbasalt is outdated. Installed: " ++ installed
                  ++ ", Latest: " ++ pyTrim rest)])

/-- Model of the AUR-helper resolution inlined at lines 197-202 and
247-252: the operator-supplied name when it is nonempty and resolves on
PATH, otherwise the first of `["yay", "paru"]` that resolves, otherwise
none. -/
def resolveHelper (env : Env) (aur_helper : String) : Option String :=
  if aur_helper ≠ "" ∧ env.which aur_helper = true then some aur_helper
  else ["yay", "paru"].find? env.which

/-- Runs a sequence of `subprocess.run(..., check=True)` calls in order,
stopping at the first failure (the raised exception aborts the rest of
the sequence); returns the outcome of the sequence together with the
trace of the commands invoked (a missing executable still records the
invocation attempt). -/
def runSeq (env : Env) : List (List String) → RunRes × List Event
  | [] => (.ok, [])
  | c :: cs =>
    match env.runRes c with
    | .ok => ((runSeq env cs).fst, .runCmd c :: (runSeq env cs).snd)
    | .calledProcessError => (.calledProcessError, [.runCmd c])
    | .fileNotFound => (.fileNotFound, [.runCmd c])

/-- A `subprocess.run` sequence under the outer exception handler: a
`CalledProcessError` is caught and logged, a `FileNotFoundError` is not
caught by `except subprocess.CalledProcessError` and escapes. -/
def runSeqCaught (env : Env) (errLog : Event) (cmds : List (List String)) :
    PyResult Unit × List Event :=
  match (runSeq env cmds).fst with
  | .ok => (.ret (), (runSeq env cmds).snd)
  | .calledProcessError => (.ret (), (runSeq env cmds).snd ++ [errLog])
  | .fileNotFound => (.exc .fileNotFound, (runSeq env cmds).snd)

/-- Log message of the outer exception handler of `install_vkbasalt`
(line 221). -/
def installErrLog : Event := .logMsg "An error occurred during installation"

/-- Log message of the outer exception handler of `uninstall_vkbasalt`
(line 266). -/
def uninstallErrLog : Event := .logMsg "An error occurred during uninstallation"

/-- Trace prefix of the arch install fallback path: the failed pacman
command and the fallback log message (lines 194-196). -/
def archInstBase : List Event :=
  [.runCmd ["sudo", "pacman", "-Syu", "vkbasalt", "--noconfirm"],
   .logMsg "Pacman did not find/update vkbasalt. Checking for an AUR helper..."]

/-- Trace prefix of the arch uninstall fallback path: the failed pacman
command and the fallback log message (lines 244-246). -/
def archUninstBase : List Event :=
  [.runCmd ["sudo", "pacman", "-Rns", "--noconfirm", "vkbasalt"],
   .logMsg "Pacman removal failed. Checking for an AUR helper..."]

/-- Model of the per-distro dispatch inside the `try` block of
`install_vkbasalt` (lines 183-221).  Any `CalledProcessError` raised by a
`subprocess.run` in this block (including the AUR fallback install raised
inside the inner `except` handler) is caught by the outer handler and
logged; a `FileNotFoundError` (missing executable, e.g. sudo or the
helper), and any exception escaping `is_vkbasalt_up_to_date_with_aur`
other than the `CalledProcessError` it catches itself, propagates
uncaught. -/
def installDispatch (env : Env) (distro : String) (aur_helper : String) :
    PyResult Unit × List Event :=
  if distro = "debian" then
    runSeqCaught env installErrLog
      [["sudo", "apt-get", "update"],
       ["sudo", "apt-get", "install", "-y", "vkbasalt"]]
  else if distro = "fedora" then
    runSeqCaught env installErrLog
      [["sudo", "dnf", "install", "-y", "vkbasalt"]]
  else if distro = "arch" then
    match env.runRes ["sudo", "pacman", "-Syu", "vkbasalt", "--noconfirm"] with
    | .ok =>
      (.ret (), [.runCmd ["sudo", "pacman", "-Syu", "vkbasalt", "--noconfirm"]])
    | .fileNotFound =>
      (.exc .fileNotFound,
        [.runCmd ["sudo", "pacman", "-Syu", "vkbasalt", "--noconfirm"]])
    | .calledProcessError =>
      match resolveHelper env aur_helper with
      | some h =>
        match (is_vkbasalt_up_to_date_with_aur env h).fst with
        | .ret true =>
          (.ret (), archInstBase
            ++ (is_vkbasalt_up_to_date_with_aur env h).snd
            ++ [.logMsg ("vkbasalt is already installed and up-to-date via "
                  ++ h ++ ".")])
        | .ret false =>
          match env.runRes [h, "-S", "--needed", "--noconfirm", "vkbasalt"] with
          | .ok =>
            (.ret (), archInstBase
              ++ (is_vkbasalt_up_to_date_with_aur env h).snd
              ++ [.runCmd [h, "-S", "--needed", "--noconfirm", "vkbasalt"]])
          | .calledProcessError =>
            (.ret (), archInstBase
              ++ (is_vkbasalt_up_to_date_with_aur env h).snd
              ++ [.runCmd [h, "-S", "--needed", "--noconfirm", "vkbasalt"],
                installErrLog])
          | .fileNotFound =>
            (.exc .fileNotFound, archInstBase
              ++ (is_vkbasalt_up_to_date_with_aur env h).snd
              ++ [.runCmd [h, "-S", "--needed", "--noconfirm", "vkbasalt"]])
        | .exc e =>
          (.exc e, archInstBase ++ (is_vkbasalt_up_to_date_with_aur env h).snd)
      | none =>
        (.ret (), archInstBase
          ++ [.logMsg "No AUR helper found. Please install vkbasalt manually."])
  else if distro = "void" then
    runSeqCaught env installErrLog
      [["sudo", "xbps-install", "-S", "vkbasalt"]]
  else if distro = "solus" then
    runSeqCaught env installErrLog
      [["sudo", "eopkg", "update"], ["sudo", "eopkg", "install", "vkbasalt"]]
  else
    (.ret (),
      [.logMsg "Unsupported Linux distribution. Cannot install vkbasalt automatically."])

/-- Model of `install_vkbasalt` (lines 167-221).  The Flatpak branch runs
before everything else and is NOT inside the `try` block, so a failing
`flatpak install` raises uncaught.  On the non-Flatpak path the
`platform.machine()` architecture gate runs before any package-manager
subprocess. -/
def install_vkbasalt (env : Env) (distro : String) (use_flatpak : Bool)
    (flatpak_pkg : String) (aur_helper : String) :
    PyResult Unit × List Event :=
  if use_flatpak then
    if env.which "flatpak" = false then
      (.ret (),
        [.logMsg "Flatpak is not installed. Cannot proceed with Flatpak installation."])
    else
      match env.runRes ["flatpak", "install", "--user", "--noninteractive",
          "flathub", flatpak_pkg] with
      | .ok =>
        (.ret (), [.runCmd ["flatpak", "install", "--user", "--noninteractive",
          "flathub", flatpak_pkg]])
      | .calledProcessError =>
        (.exc .calledProcessError,
          [.runCmd ["flatpak", "install", "--user", "--noninteractive",
            "flathub", flatpak_pkg]])
      | .fileNotFound =>
        (.exc .fileNotFound,
          [.runCmd ["flatpak", "install", "--user", "--noninteractive",
            "flathub", flatpak_pkg]])
  else
    if env.machine ≠ "x86_64" then
      (.ret (), [.archCheck env.machine,
        .logMsg ("Only 64-bit systems are supported. Your system architecture: "
          ++ env.machine)])
    else
      ((installDispatch env distro aur_helper).fst,
        .archCheck env.machine :: (installDispatch env distro aur_helper).snd)

/-- Model of the per-distro dispatch inside the `try` block of
`uninstall_vkbasalt` (lines 234-266): `CalledProcessError` is caught and
logged, a missing executable raises uncaught. -/
def uninstallDispatch (env : Env) (distro : String) (aur_helper : String) :
    PyResult Unit × List Event :=
  if distro = "debian" then
    runSeqCaught env uninstallErrLog
      [["sudo", "apt-get", "remove", "-y", "vkbasalt"]]
  else if distro = "fedora" then
    runSeqCaught env uninstallErrLog
      [["sudo", "dnf", "remove", "-y", "vkbasalt"]]
  else if distro = "arch" then
    match env.runRes ["sudo", "pacman", "-Rns", "--noconfirm", "vkbasalt"] with
    | .ok =>
      (.ret (), [.runCmd ["sudo", "pacman", "-Rns", "--noconfirm", "vkbasalt"]])
    | .fileNotFound =>
      (.exc .fileNotFound,
        [.runCmd ["sudo", "pacman", "-Rns", "--noconfirm", "vkbasalt"]])
    | .calledProcessError =>
      match resolveHelper env aur_helper with
      | some h =>
        match env.runRes [h, "-Rns", "--noconfirm", "vkbasalt"] with
        | .ok =>
          (.ret (), archUninstBase
            ++ [.runCmd [h, "-Rns", "--noconfirm", "vkbasalt"]])
        | .calledProcessError =>
          (.ret (), archUninstBase
            ++ [.runCmd [h, "-Rns", "--noconfirm", "vkbasalt"], uninstallErrLog])
        | .fileNotFound =>
          (.exc .fileNotFound, archUninstBase
            ++ [.runCmd [h, "-Rns", "--noconfirm", "vkbasalt"]])
      | none =>
        (.ret (), archUninstBase
          ++ [.logMsg "No AUR helper found. Cannot uninstall vkbasalt automatically for Arch."])
  else if distro = "void" then
    runSeqCaught env uninstallErrLog
      [["sudo", "xbps-remove", "-R", "vkbasalt"]]
  else if distro = "solus" then
    runSeqCaught env uninstallErrLog
      [["sudo", "eopkg", "remove", "vkbasalt"]]
  else
    (.ret (),
      [.logMsg "Unsupported Linux distribution. Cannot uninstall vkbasalt automatically."])

/-- Model of `uninstall_vkbasalt` (lines 224-266).  As in
`install_vkbasalt`, the Flatpak branch is outside the `try` block, so a
failing `flatpak uninstall` raises uncaught.  There is no architecture
gate on the uninstall path. -/
def uninstall_vkbasalt (env : Env) (distro : String) (use_flatpak : Bool)
    (flatpak_pkg : String) (aur_helper : String) :
    PyResult Unit × List Event :=
  if use_flatpak then
    if env.which "flatpak" = false then
      (.ret (),
        [.logMsg "Flatpak is not installed. Cannot proceed with uninstallation."])
    else
      match env.runRes ["flatpak", "uninstall", "--user", "-y", flatpak_pkg] with
      | .ok =>
        (.ret (), [.runCmd ["flatpak", "uninstall", "--user", "-y", flatpak_pkg]])
      | .calledProcessError =>
        (.exc .calledProcessError,
          [.runCmd ["flatpak", "uninstall", "--user", "-y", flatpak_pkg]])
      | .fileNotFound =>
        (.exc .fileNotFound,
          [.runCmd ["flatpak", "uninstall", "--user", "-y", flatpak_pkg]])
  else
    uninstallDispatch env distro aur_helper

/-- Classification of the `id_like` value (lines 86-96): substring
membership tested in order debian, fedora, arch, void, solus; `"unknown"`
when none matches. -/
def matchIdLike (v : String) : String :=
  if strContains v "debian" then "debian"
  else if strContains v "fedora" then "fedora"
  else if strContains v "arch" then "arch"
  else if strContains v "void" then "void"
  else if strContains v "solus" then "solus"
  else "unknown"

/-- Classification of the `id` value (lines 97-107): exact membership in
the per-family alias sets. -/
def matchId (v : String) : String :=
  if v = "debian" ∨ v = "ubuntu" ∨ v = "linuxmint" then "debian"
  else if v = "fedora" ∨ v = "centos" ∨ v = "rhel" then "fedora"
  else if v = "arch" ∨ v = "manjaro" ∨ v = "cachyos" then "arch"
  else if v = "void" then "void"
  else if v = "solus" then "solus"
  else "unknown"

/-- Model of the classification phase of `detect_distro` (lines 86-107)
on the already-parsed identification mapping (lower-cased keys to
lower-cased unquoted values): `distro` starts as `"unknown"`, the
`id_like` chain may set it, and the `id` chain runs only while `distro`
is still `"unknown"`. -/
def classifyDistro (info : String → Option String) : String :=
  let d1 := match info "id_like" with
    | some v => matchIdLike v
    | none => "unknown"
  if d1 = "unknown" then
    match info "id" with
    | some v => matchId v
    | none => "unknown"
  else d1

/-- Operator-facing configuration parsed by `argparse` in `main`
(lines 379-388).  `aur_helper` defaults to the empty string, which Python
treats as falsy at every `if aur_helper` test. -/
structure Args where
  force_distro : Option String
  uninstall : Bool
  flatpak : Bool
  flatpak_pkg : String
  aur_helper : String

/-- The distro value used by the run (lines 400-403): the detection
result, overridden by the lower-cased operator-supplied `--force-distro`
string when that string is truthy — `if args.force_distro:` at line 401
means an empty supplied string is ignored and the detected distro kept. -/
def computeDistro (env : Env) (args : Args) : String :=
  match args.force_distro with
  | some s => if s = "" then env.detectedDistro else pyLower s
  | none => env.detectedDistro

/-- Model of `main` after argument parsing (lines 400-431).  Uninstall
mode dispatches removal and returns without provisioning.  Install mode
consults the presence heuristic; when present and the distro is arch with
an operator-supplied helper, the up-to-date check decides between
skipping and falling through to installation; any other present case
skips unconditionally.  Provisioning (`setup_vkbasalt_config`,
`create_pyroclast_directories`, `prompt_and_download_assets`) is the
single `.provision` event; an exception escaping `install_vkbasalt` or
the up-to-date check aborts the run before it. -/
def main (env : Env) (args : Args) : PyResult Unit × List Event :=
  if args.uninstall then
    uninstall_vkbasalt env (computeDistro env args) args.flatpak
      args.flatpak_pkg args.aur_helper
  else
    if env.installed then
      if computeDistro env args = "arch" ∧ args.aur_helper ≠ "" then
        match (is_vkbasalt_up_to_date_with_aur env args.aur_helper).fst with
        | .ret true =>
          (.ret (), .presenceCheck ::
            (is_vkbasalt_up_to_date_with_aur env args.aur_helper).snd
            ++ [.provision])
        | .ret false =>
          match (install_vkbasalt env (computeDistro env args) args.flatpak
              args.flatpak_pkg args.aur_helper).fst with
          | .ret _ =>
            (.ret (), .presenceCheck ::
              (is_vkbasalt_up_to_date_with_aur env args.aur_helper).snd
              ++ (install_vkbasalt env (computeDistro env args) args.flatpak
                args.flatpak_pkg args.aur_helper).snd
              ++ [.provision])
          | .exc e =>
            (.exc e, .presenceCheck ::
              (is_vkbasalt_up_to_date_with_aur env args.aur_helper).snd
              ++ (install_vkbasalt env (computeDistro env args) args.flatpak
                args.flatpak_pkg args.aur_helper).snd)
        | .exc e =>
          (.exc e, .presenceCheck ::
            (is_vkbasalt_up_to_date_with_aur env args.aur_helper).snd)
      else
        (.ret (), [.presenceCheck, .provision])
    else
      match (install_vkbasalt env (computeDistro env args) args.flatpak
          args.flatpak_pkg args.aur_helper).fst with
      | .ret _ =>
        (.ret (), .presenceCheck ::
          (install_vkbasalt env (computeDistro env args) args.flatpak
            args.flatpak_pkg args.aur_helper).snd ++ [.provision])
      | .exc e =>
        (.exc e, .presenceCheck ::
          (install_vkbasalt env (computeDistro env args) args.flatpak
            args.flatpak_pkg args.aur_helper).snd)

/-- Events that the dispatch layers emit: subprocess commands and log
messages only. -/
def eventBenign (e : Event) : Bool :=
  match e with
  | .runCmd _ => true
  | .logMsg _ => true
  | _ => false

/-- Modelled from the claim's wording, for comparison with the code (not
translated from the source): a line provides the available version when
its key — the text before the first colon, trimmed, case-insensitively —
equals "version"; the value is the trimmed text after that colon. -/
def specLineVersion (l : String) : Option String :=
  match afterFirstColon l with
  | none => none
  | some rest =>
    if pyLower (pyTrim (String.mk (l.data.takeWhile (fun c => c ≠ ':'))))
        = "version"
    then some (pyTrim rest) else none

/-- Modelled from the claim's wording, for comparison with the code (not
translated from the source): installed version is the second whitespace
token of the query-installed output, available version comes from the
first line whose key equals "version", up to date iff the strings are
equal. -/
def specUpToDate (installedOut availOut : String) : Option Bool :=
  match (pySplitWs (pyTrim installedOut)).get? 1 with
  | none => none
  | some installed =>
    match (pySplitlines availOut).findSome? specLineVersion with
    | none => none
    | some latest => some (decide (installed = latest))

/-- Example environment: present vkBasalt on a 64-bit fedora host whose
AUR query commands all exit nonzero. -/
def envPresentFedora : Env :=
  ⟨fun _ => false, "x86_64", fun _ => .ok, fun _ => .calledProcessError,
    "fedora", true⟩

/-- Example environment: absent vkBasalt on a 64-bit fedora host where
every subprocess fails with a nonzero exit. -/
def envFailingFedora : Env :=
  ⟨fun _ => false, "x86_64", fun _ => .calledProcessError,
    fun _ => .calledProcessError, "fedora", false⟩

/-- Example environment: flatpak resolvable on PATH but every subprocess
exits nonzero; vkBasalt absent. -/
def envFlatpakBroken : Env :=
  ⟨fun _ => true, "x86_64", fun _ => .calledProcessError,
    fun _ => .calledProcessError, "fedora", false⟩

/-- Example environment: a 64-bit debian host on which no invoked
executable exists (every `subprocess.run` raises `FileNotFoundError`,
as when sudo itself is absent); vkBasalt absent. -/
def envMissingSudo : Env :=
  ⟨fun _ => false, "x86_64", fun _ => .fileNotFound,
    fun _ => .fileNotFound, "debian", false⟩

/-- Example environment: present vkBasalt on a 64-bit arch host whose
query-available output has no version line (the up-to-date check raises
`NameError`). -/
def envArchNoVersion : Env :=
  ⟨fun _ => false, "x86_64", fun _ => .calledProcessError,
    fun c => if c = ["yay", "-Q", "vkbasalt"] then .ok "vkbasalt 1.2.3"
      else .ok "Name : vkbasalt\nDescription : a Vulkan layer",
    "arch", true⟩

/-- Example environment: a 32-bit arm machine. -/
def envArm : Env :=
  ⟨fun _ => false, "armv7l", fun _ => .calledProcessError,
    fun _ => .calledProcessError, "fedora", false⟩

/-- Example environment: both yay and paru resolvable on PATH. -/
def envBothHelpers : Env :=
  ⟨fun s => s == "yay" || s == "paru", "x86_64",
    fun _ => .calledProcessError, fun _ => .calledProcessError, "arch", true⟩

/-- Example arguments: plain install run with every option defaulted. -/
def argsPlain : Args := ⟨none, false, false, "org.vkbasalt.vkbasalt", ""⟩

/-- Example arguments: uninstall run with every other option defaulted. -/
def argsUninstall : Args := ⟨none, true, false, "org.vkbasalt.vkbasalt", ""⟩

/-- Example arguments: Flatpak install run. -/
def argsFlatpak : Args := ⟨none, false, true, "org.vkbasalt.vkbasalt", ""⟩

/-- Example arguments: install run forcing the distro string "Gentoo". -/
def argsGentoo : Args := ⟨some "Gentoo", false, false, "org.vkbasalt.vkbasalt", ""⟩

/-- Example arguments: install run supplying the empty force-distro
string. -/
def argsEmptyForce : Args := ⟨some "", false, false, "org.vkbasalt.vkbasalt", ""⟩

/-- Example arguments: install run with the operator-supplied AUR helper
yay. -/
def argsYay : Args := ⟨none, false, false, "org.vkbasalt.vkbasalt", "yay"⟩

theorem not_mem_of_all_benign {e : Event} {l : List Event}
    (hl : l.all eventBenign = true) (he : eventBenign e = false) : e ∉ l := by
  intro hm
  have h := List.all_eq_true.mp hl e hm
  rw [he] at h
  exact Bool.false_ne_true h

theorem runSeq_all_benign (env : Env) (cmds : List (List String)) :
    ((runSeq env cmds).snd.all eventBenign) = true := by
  induction cmds with
  | nil => rfl
  | cons c cs ih =>
    unfold runSeq
    split
    · simp [eventBenign, ih]
    · simp [eventBenign]
    · simp [eventBenign]

theorem runSeqCaught_all_benign (env : Env) (errLog : Event)
    (cmds : List (List String)) (he : eventBenign errLog = true) :
    ((runSeqCaught env errLog cmds).snd.all eventBenign) = true := by
  unfold runSeqCaught
  split <;>
    simp [List.all_append, List.all_cons, List.all_nil, runSeq_all_benign, he]

theorem runSeq_no_fnf (env : Env) (cmds : List (List String))
    (hrun : ∀ c, env.runRes c ≠ RunRes.fileNotFound) :
    (runSeq env cmds).fst ≠ RunRes.fileNotFound := by
  induction cmds with
  | nil => simp [runSeq]
  | cons c cs ih =>
    unfold runSeq
    rcases hc : env.runRes c with _ | _ | _
    · simpa using ih
    · simp
    · exact absurd hc (hrun c)

theorem runSeqCaught_ret (env : Env) (errLog : Event)
    (cmds : List (List String))
    (hrun : ∀ c, env.runRes c ≠ RunRes.fileNotFound) :
    (runSeqCaught env errLog cmds).fst = .ret () := by
  unfold runSeqCaught
  split
  · rfl
  · rfl
  · exact absurd (by assumption) (runSeq_no_fnf env cmds hrun)

theorem uninstall_all_benign (env : Env) (d : String) (uf : Bool)
    (fp ah : String) :
    ((uninstall_vkbasalt env d uf fp ah).snd.all eventBenign) = true := by
  unfold uninstall_vkbasalt uninstallDispatch
  repeat' split
  all_goals try exact runSeqCaught_all_benign env _ _ rfl
  all_goals simp [eventBenign, archUninstBase, uninstallErrLog]

theorem up2date_runCmds (env : Env) (ah : String) :
    runCmds (is_vkbasalt_up_to_date_with_aur env ah).snd = [] := by
  unfold is_vkbasalt_up_to_date_with_aur
  repeat' split
  all_goals simp [runCmds]

/-- C2 (amended): for every parsed identification mapping the id_like key
is tested first, by substring membership in the fixed order debian,
fedora, arch, void, solus, and the id key is consulted only if id_like
produced no match; for all mappings where id_like contains "arch" and
contains neither "debian" nor "fedora", detection returns arch regardless
of the id value. -/
theorem detect_distro_idlike_priority :
    (∀ info : String → Option String, ∀ v : String,
      info "id_like" = some v → matchIdLike v ≠ "unknown" →
      classifyDistro info = matchIdLike v)
    ∧ (∀ info : String → Option String, ∀ v : String,
      info "id_like" = some v →
      strContains v "arch" = true → strContains v "debian" = false →
      strContains v "fedora" = false →
      classifyDistro info = "arch") := by
  constructor
  · intro info v hv hm
    unfold classifyDistro
    rw [hv]
    simp [hm]
  · intro info v hv ha hd hf
    have hm : matchIdLike v = "arch" := by
      unfold matchIdLike
      rw [hd, hf, ha]
      simp
    unfold classifyDistro
    rw [hv]
    simp [hm]
    exact fun h => absurd h (by decide)

/-- C2 witness: a mapping whose id_like value contains only "arch" is
classified as arch even though its id value is "debian". -/
theorem detect_distro_idlike_priority_witness :
    classifyDistro (fun k =>
      if k = "id_like" then some "archlinux"
      else if k = "id" then some "debian" else none) = "arch" :=
  detect_distro_idlike_priority.2 _ "archlinux" rfl (by decide) (by decide)
    (by decide)

/-- C2 counterexample: the claim as frozen says that whenever id_like
contains "arch" the result is arch regardless of id; but the substring
tests run in the order debian, fedora, arch, so a mapping whose id_like
value is "debian arch" (which does contain "arch") classifies as debian,
even with id = "arch". -/
theorem detect_distro_idlike_arch_counterexample :
    strContains "debian arch" "arch" = true ∧
    classifyDistro (fun k =>
      if k = "id_like" then some "debian arch"
      else if k = "id" then some "arch" else none) = "debian" := by
  constructor
  · decide
  · decide

/-- C4 (amended): the up-to-date check fails closed for nonzero-exit
failures — if either `check_output` call raises `CalledProcessError`, the
function returns false — but an invocation failure caused by the helper
executable not existing raises an uncaught `FileNotFoundError` instead of
returning false. -/
theorem up2date_fails_closed (env : Env) (ah out1 installed : String) :
    ((env.checkOutput [ah, "-Q", "vkbasalt"] = .calledProcessError →
      (is_vkbasalt_up_to_date_with_aur env ah).fst = .ret false)
    ∧ (env.checkOutput [ah, "-Q", "vkbasalt"] = .ok out1 →
       (pySplitWs (pyTrim out1)).get? 1 = some installed →
       env.checkOutput [ah, "-Si", "vkbasalt"] = .calledProcessError →
       (is_vkbasalt_up_to_date_with_aur env ah).fst = .ret false))
    ∧ (env.checkOutput [ah, "-Q", "vkbasalt"] = .fileNotFound →
       (is_vkbasalt_up_to_date_with_aur env ah).fst = .exc .fileNotFound) := by
  refine ⟨⟨?_, ?_⟩, ?_⟩
  · intro h1
    simp only [is_vkbasalt_up_to_date_with_aur, h1]
  · intro h1 hi h2
    simp only [is_vkbasalt_up_to_date_with_aur, h1, hi, h2]
  · intro h1
    simp only [is_vkbasalt_up_to_date_with_aur, h1]

/-- C4 witness: with a helper whose query-installed command exits
nonzero, the check returns false. -/
theorem up2date_fails_closed_witness :
    (is_vkbasalt_up_to_date_with_aur
      ⟨fun _ => false, "x86_64", fun _ => RunRes.ok,
        fun _ => .calledProcessError, "arch", true⟩ "yay").fst
      = .ret false :=
  (up2date_fails_closed _ "yay" "" "").1.1 rfl

/-- C4 counterexample: the claim as frozen says every kind of invocation
failure, including the helper executable not existing, yields false; but
a missing executable raises `FileNotFoundError`, which the handler
(`except subprocess.CalledProcessError`) does not catch, so the check
does not return false. -/
theorem up2date_file_not_found_counterexample :
    (is_vkbasalt_up_to_date_with_aur
      ⟨fun _ => false, "x86_64", fun _ => RunRes.ok,
        fun _ => .fileNotFound, "arch", true⟩ "yay").fst
      ≠ .ret false ∧
    (is_vkbasalt_up_to_date_with_aur
      ⟨fun _ => false, "x86_64", fun _ => RunRes.ok,
        fun _ => .fileNotFound, "arch", true⟩ "yay").fst
      = .exc .fileNotFound := by
  constructor
  · decide
  · decide

/-- C9: whenever both `check_output` invocations happen and succeed (the
second is reached only when the installed-version parse finds a second
token) and the query-available output has no line whose lowercased text
starts with "version", the comparison reads the never-bound `latest`
variable and raises an uncaught `UnboundLocalError`, a `NameError`. -/
theorem up2date_nameerror (env : Env) (ah out1 out2 installed : String)
    (h1 : env.checkOutput [ah, "-Q", "vkbasalt"] = .ok out1)
    (hi : (pySplitWs (pyTrim out1)).get? 1 = some installed)
    (h2 : env.checkOutput [ah, "-Si", "vkbasalt"] = .ok out2)
    (hn : (pySplitlines out2).find?
      (fun l => pyStartsWith (pyLower l) "version") = none) :
    (is_vkbasalt_up_to_date_with_aur env ah).fst = .exc .nameError := by
  simp only [is_vkbasalt_up_to_date_with_aur, h1, hi, h2, hn]

/-- C9 witness: the error branch is reachable — a query-available output
with no version line makes the function raise instead of returning. -/
theorem up2date_nameerror_witness :
    (is_vkbasalt_up_to_date_with_aur
      ⟨fun _ => false, "x86_64", fun _ => RunRes.ok,
        fun c => if c = ["yay", "-Q", "vkbasalt"] then .ok "vkbasalt 1.2.3"
          else .ok "Name : vkbasalt\nDescription : a Vulkan layer",
        "arch", true⟩ "yay").fst = .exc .nameError :=
  up2date_nameerror _ "yay" "vkbasalt 1.2.3"
    "Name : vkbasalt\nDescription : a Vulkan layer" "1.2.3"
    (by decide) (by decide) (by decide) (by decide)

/-- C7 (amended): the check parses the installed version as the second
whitespace-delimited token of the query-installed output, parses the
available version from the FIRST line of the query-available output whose
lowercased text STARTS WITH "version" (taking the trimmed text after the
first colon of that line), and returns true iff the two strings are equal
by pure string equality — so installed "1.2.3" with an available line
"Version : 1.2.3" yields true and available "1.2.4" yields false. -/
theorem up2date_parse_compare (env : Env)
    (ah out1 out2 installed line rest : String)
    (h1 : env.checkOutput [ah, "-Q", "vkbasalt"] = .ok out1)
    (hi : (pySplitWs (pyTrim out1)).get? 1 = some installed)
    (h2 : env.checkOutput [ah, "-Si", "vkbasalt"] = .ok out2)
    (hl : (pySplitlines out2).find?
      (fun l => pyStartsWith (pyLower l) "version") = some line)
    (hc : afterFirstColon line = some rest) :
    (is_vkbasalt_up_to_date_with_aur env ah).fst
      = .ret (decide (installed = pyTrim rest)) := by
  simp only [is_vkbasalt_up_to_date_with_aur, h1, hi, h2, hl, hc]
  by_cases h : installed = pyTrim rest <;> simp [h]

/-- C7 witness: installed "1.2.3" with the available line
"Version : 1.2.3" yields true. -/
theorem up2date_parse_compare_witness :
    (is_vkbasalt_up_to_date_with_aur
      ⟨fun _ => false, "x86_64", fun _ => RunRes.ok,
        fun c => if c = ["yay", "-Q", "vkbasalt"] then .ok "vkbasalt 1.2.3"
          else .ok "Name : vkbasalt\nVersion : 1.2.3",
        "arch", true⟩ "yay").fst = .ret true :=
  up2date_parse_compare _ "yay" "vkbasalt 1.2.3"
    "Name : vkbasalt\nVersion : 1.2.3" "1.2.3" "Version : 1.2.3" " 1.2.3"
    (by decide) (by decide) (by decide) (by decide) (by decide)

/-- C7 counterexample: the claim as frozen picks the line whose key
before the first colon equals "version"; the code instead takes the first
line whose lowercased text merely starts with "version".  On available
output "Versions : 1.2.4\nVersion : 1.2.3" with installed "1.2.3", the
claim's described parse selects the "Version" line and reports up to date
(true), while the code selects the "Versions" line and returns false. -/
theorem up2date_parse_counterexample :
    specUpToDate "vkbasalt 1.2.3" "Versions : 1.2.4\nVersion : 1.2.3"
      = some true ∧
    (is_vkbasalt_up_to_date_with_aur
      ⟨fun _ => false, "x86_64", fun _ => RunRes.ok,
        fun c => if c = ["yay", "-Q", "vkbasalt"] then .ok "vkbasalt 1.2.3"
          else .ok "Versions : 1.2.4\nVersion : 1.2.3",
        "arch", true⟩ "yay").fst = .ret false := by
  constructor
  · decide
  · decide
/-- C3: whenever the native pacman action fails with a nonzero exit (the
`except subprocess.CalledProcessError` handlers at lines 195/245 are what
trigger fallback; a missing executable raises uncaught instead), the
fallback helper is the operator-supplied name if one was given and it
resolves on PATH; otherwise the first resolvable name of the fixed
priority list (yay before paru); otherwise absent, in which case both the
install and the uninstall dispatch log an unsupported message and invoke
no further package-manager subprocess for that action (the trace
equations end at the failed pacman command and log messages). -/
theorem fallback_resolution (env : Env) (ah : String) :
    ((ah ≠ "" → env.which ah = true → resolveHelper env ah = some ah)
    ∧ ((ah = "" ∨ env.which ah = false) →
        resolveHelper env ah =
          (if env.which "yay" then some "yay"
           else if env.which "paru" then some "paru" else none)))
    ∧ (env.runRes ["sudo", "pacman", "-Syu", "vkbasalt", "--noconfirm"]
         = .calledProcessError →
       resolveHelper env ah = none →
       installDispatch env "arch" ah =
         (.ret (), archInstBase
           ++ [.logMsg "No AUR helper found. Please install vkbasalt manually."]))
    ∧ (env.runRes ["sudo", "pacman", "-Rns", "--noconfirm", "vkbasalt"]
         = .calledProcessError →
       resolveHelper env ah = none →
       uninstallDispatch env "arch" ah =
         (.ret (), archUninstBase
           ++ [.logMsg "No AUR helper found. Cannot uninstall vkbasalt automatically for Arch."])) := by
  refine ⟨⟨?_, ?_⟩, ?_, ?_⟩
  · intro h1 h2
    unfold resolveHelper
    rw [if_pos ⟨h1, h2⟩]
  · intro hcase
    have hno : ¬(ah ≠ "" ∧ env.which ah = true) := by
      rcases hcase with h | h
      · exact fun hc => hc.1 h
      · exact fun hc => by rw [h] at hc; exact Bool.false_ne_true hc.2
    unfold resolveHelper
    rw [if_neg hno]
    cases hy : env.which "yay" <;> cases hp : env.which "paru" <;>
      simp [List.find?, hy, hp]
  · intro hp hr
    simp [installDispatch, hp, hr]
  · intro hp hr
    simp [uninstallDispatch, hp, hr]

/-- C3 witness: with no operator-supplied helper and both yay and paru on
PATH, the resolved fallback is yay. -/
theorem fallback_resolution_witness :
    resolveHelper envBothHelpers "" = some "yay" := by
  have h := (fallback_resolution envBothHelpers "").1.2 (Or.inl rfl)
  rw [h]
  decide

/-- C8: on the non-Flatpak install path the first trace event is the
architecture-gate check, a non-x86_64 machine yields a trace with no
subprocess command, and neither the Flatpak install path nor any
uninstall path ever performs the architecture check. -/
theorem arch_gating (env : Env) (d fp ah : String) (uf : Bool) :
    ((install_vkbasalt env d false fp ah).snd.head?
      = some (.archCheck env.machine))
    ∧ (env.machine ≠ "x86_64" →
        runCmds (install_vkbasalt env d false fp ah).snd = [])
    ∧ (∀ m, Event.archCheck m ∉ (install_vkbasalt env d true fp ah).snd)
    ∧ (∀ m, Event.archCheck m ∉ (uninstall_vkbasalt env d uf fp ah).snd) := by
  refine ⟨?_, ?_, ?_, ?_⟩
  · unfold install_vkbasalt
    rw [if_neg (by exact Bool.false_ne_true)]
    split <;> rfl
  · intro hm
    unfold install_vkbasalt
    rw [if_neg (by exact Bool.false_ne_true), if_pos hm]
    simp [runCmds]
  · intro m
    unfold install_vkbasalt
    rw [if_pos rfl]
    split
    · simp
    · split <;> simp
  · intro m
    exact not_mem_of_all_benign (uninstall_all_benign env d uf fp ah) rfl

/-- C8 witness: on a 32-bit arm machine the non-Flatpak install run
issues no subprocess command at all. -/
theorem arch_gating_witness :
    runCmds (install_vkbasalt envArm "fedora" false "org.vkbasalt.vkbasalt"
      "").snd = [] :=
  (arch_gating envArm "fedora" "org.vkbasalt.vkbasalt" "" false).2.1
    (by decide)

/-- C10 (amended): every nonempty operator-supplied force-distro string
is lower-cased and used verbatim as the run's distro value (it is not
confined to the enumerated family set) — an empty supplied string is
falsy at the line-401 `if args.force_distro:` test and leaves the
detected distro in place — and whenever the forced value is none of
debian, fedora, arch, void, solus, both the install dispatch and the
uninstall dispatch take the unsupported branch, logging only and
invoking no package-manager subprocess. -/
theorem force_distro_verbatim (env : Env) (args : Args) (s : String)
    (hf : args.force_distro = some s) (hs : s ≠ "") :
    computeDistro env args = pyLower s
    ∧ (pyLower s ∉ (["debian", "fedora", "arch", "void", "solus"] : List String) →
        installDispatch env (pyLower s) args.aur_helper =
          (.ret (), [.logMsg "Unsupported Linux distribution. Cannot install vkbasalt automatically."])
        ∧ uninstallDispatch env (pyLower s) args.aur_helper =
          (.ret (), [.logMsg "Unsupported Linux distribution. Cannot uninstall vkbasalt automatically."])) := by
  constructor
  · unfold computeDistro
    rw [hf]
    exact if_neg hs
  · intro hn
    simp only [List.mem_cons, List.not_mem_nil, or_false, not_or] at hn
    obtain ⟨h1, h2, h3, h4, h5⟩ := hn
    constructor
    · simp [installDispatch, h1, h2, h3, h4, h5]
    · simp [uninstallDispatch, h1, h2, h3, h4, h5]

/-- C10 witness: forcing "Gentoo" makes the run's distro "gentoo", and
both dispatches take the unsupported branch with no subprocess. -/
theorem force_distro_verbatim_witness :
    computeDistro envPresentFedora argsGentoo = pyLower "Gentoo"
    ∧ installDispatch envPresentFedora (pyLower "Gentoo") "" =
        (.ret (), [.logMsg "Unsupported Linux distribution. Cannot install vkbasalt automatically."])
    ∧ uninstallDispatch envPresentFedora (pyLower "Gentoo") "" =
        (.ret (), [.logMsg "Unsupported Linux distribution. Cannot uninstall vkbasalt automatically."]) := by
  have h := force_distro_verbatim envPresentFedora argsGentoo "Gentoo" rfl
    (by decide)
  have h2 := h.2 (by decide)
  exact ⟨h.1, h2.1, h2.2⟩

/-- C10 counterexample: the claim as frozen says the run's distro value
equals the lowercased operator-supplied string for every supplied string;
but `--force-distro ""` is falsy at the line-401 truthiness test, so the
program keeps the detected distro (here "fedora") instead of the empty
string. -/
theorem force_distro_empty_counterexample :
    computeDistro envPresentFedora argsEmptyForce = "fedora"
    ∧ pyLower "" = ""
    ∧ ("fedora" : String) ≠ "" := by
  refine ⟨?_, ?_, ?_⟩
  · decide
  · decide
  · decide

/-- C6: in uninstall mode the presence check is never consulted and
provisioning never runs, regardless of the removal's success or failure;
on the non-Flatpak path with distro fedora the run issues exactly the
single package-manager command `dnf remove -y vkbasalt` (invoked through
the sudo elevation wrapper, as every package-manager command in this
program is), whether that removal succeeds or fails — and it returns
normally whenever the removal executable itself exists (a missing
executable instead raises the uncaught `FileNotFoundError` that
`subprocess.run` produces, still with no provisioning). -/
theorem uninstall_mode (env : Env) (args : Args)
    (hu : args.uninstall = true) :
    (Event.presenceCheck ∉ (main env args).snd
     ∧ Event.provision ∉ (main env args).snd)
    ∧ (args.flatpak = false → computeDistro env args = "fedora" →
       runCmds (main env args).snd
           = [["sudo", "dnf", "remove", "-y", "vkbasalt"]]
       ∧ (env.runRes ["sudo", "dnf", "remove", "-y", "vkbasalt"]
            ≠ .fileNotFound →
          (main env args).fst = .ret ())) := by
  have hmain : main env args =
      uninstall_vkbasalt env (computeDistro env args) args.flatpak
        args.flatpak_pkg args.aur_helper := by
    unfold main
    rw [if_pos hu]
  refine ⟨⟨?_, ?_⟩, ?_⟩
  · rw [hmain]
    exact not_mem_of_all_benign
      (uninstall_all_benign env (computeDistro env args) args.flatpak
        args.flatpak_pkg args.aur_helper) rfl
  · rw [hmain]
    exact not_mem_of_all_benign
      (uninstall_all_benign env (computeDistro env args) args.flatpak
        args.flatpak_pkg args.aur_helper) rfl
  · intro hf hd
    rw [hmain, hd, hf]
    unfold uninstall_vkbasalt uninstallDispatch
    rw [if_neg (by exact Bool.false_ne_true),
      if_neg (by decide : ¬("fedora" : String) = "debian"),
      if_pos (rfl : ("fedora" : String) = "fedora")]
    unfold runSeqCaught runSeq
    constructor
    · rcases hc : env.runRes ["sudo", "dnf", "remove", "-y", "vkbasalt"]
        with _ | _ | _ <;>
        simp [hc, runCmds, runSeq, uninstallErrLog]
    · intro hfnf
      rcases hc : env.runRes ["sudo", "dnf", "remove", "-y", "vkbasalt"]
        with _ | _ | _
      · simp [hc, runSeq]
      · simp [hc, runSeq]
      · exact absurd hc hfnf

/-- C6 witness: an uninstall run on fedora whose dnf command exits
nonzero still issues exactly that one command, returns, and never
provisions. -/
theorem uninstall_mode_witness :
    (Event.provision ∉ (main envFailingFedora argsUninstall).snd)
    ∧ (main envFailingFedora argsUninstall).fst = .ret ()
    ∧ runCmds (main envFailingFedora argsUninstall).snd
        = [["sudo", "dnf", "remove", "-y", "vkbasalt"]] := by
  have h := uninstall_mode envFailingFedora argsUninstall rfl
  exact ⟨h.1.2, (h.2 rfl rfl).2 (by decide), (h.2 rfl rfl).1⟩

theorem runCmds_wrap (tr : List Event) :
    runCmds (.presenceCheck :: tr ++ [.provision]) = runCmds tr := by
  simp [runCmds]

theorem installDispatch_ret (env : Env) (d ah : String)
    (hrun : ∀ c, env.runRes c ≠ RunRes.fileNotFound)
    (hok : ∀ h e,
      (is_vkbasalt_up_to_date_with_aur env h).fst ≠ PyResult.exc e) :
    (installDispatch env d ah).fst = .ret () := by
  unfold installDispatch
  repeat' split
  all_goals try rfl
  all_goals try exact runSeqCaught_ret env _ _ hrun
  all_goals try exact absurd (by assumption) (hrun _)
  all_goals exact absurd (by assumption) (hok _ _)

theorem install_vkbasalt_ret (env : Env) (d fp ah : String)
    (hrun : ∀ c, env.runRes c ≠ RunRes.fileNotFound)
    (hok : ∀ h e,
      (is_vkbasalt_up_to_date_with_aur env h).fst ≠ PyResult.exc e) :
    (install_vkbasalt env d false fp ah).fst = .ret () := by
  unfold install_vkbasalt
  rw [if_neg (by exact Bool.false_ne_true)]
  split
  · rfl
  · exact installDispatch_ret env d ah hrun hok

/-- C5 (amended): in install mode on the non-Flatpak path, provided every
invoked executable exists (no `subprocess.run` raises the uncaught
`FileNotFoundError`) and every invocation of the AUR up-to-date check
returns a boolean (its parsing and `FileNotFoundError` exceptions are the
other uncaught error source), every core-level error — detection failure,
tool unavailable, subprocess nonzero exit, unsupported distro — is caught
and logged, no exception escapes, and control always reaches the
provisioning stage; whereas a failing Flatpak subprocess, a missing
executable, or an exception escaping the up-to-date check aborts the run
before provisioning. -/
theorem error_containment (env : Env) (args : Args)
    (hu : args.uninstall = false) (hf : args.flatpak = false)
    (hrun : ∀ c, env.runRes c ≠ RunRes.fileNotFound)
    (hok : ∀ h e,
      (is_vkbasalt_up_to_date_with_aur env h).fst ≠ PyResult.exc e) :
    (main env args).fst = .ret ()
    ∧ Event.provision ∈ (main env args).snd := by
  have hins := install_vkbasalt_ret env (computeDistro env args)
    args.flatpak_pkg args.aur_helper hrun hok
  unfold main
  rw [hu, hf]
  rw [if_neg (by exact Bool.false_ne_true)]
  by_cases hi : env.installed = true
  · rw [if_pos hi]
    by_cases ha : computeDistro env args = "arch" ∧ args.aur_helper ≠ ""
    · rw [if_pos ha]
      rcases hq : (is_vkbasalt_up_to_date_with_aur env args.aur_helper).fst
        with b | e
      · cases b
        · simp only [hq, hins]
          exact ⟨by simp, by simp⟩
        · simp only [hq]
          exact ⟨by simp, by simp⟩
      · exact absurd hq (hok args.aur_helper e)
    · rw [if_neg ha]
      exact ⟨by simp, by simp⟩
  · rw [if_neg hi]
    simp only [hins]
    exact ⟨by simp, by simp⟩

/-- C5 witness: a non-Flatpak fedora install run where every subprocess
fails still returns normally and reaches provisioning. -/
theorem error_containment_witness :
    (main envFailingFedora argsPlain).fst = .ret ()
    ∧ Event.provision ∈ (main envFailingFedora argsPlain).snd :=
  error_containment envFailingFedora argsPlain rfl rfl
    (by intro c
        simp [envFailingFedora])
    (by intro h e
        simp [is_vkbasalt_up_to_date_with_aur, envFailingFedora])

/-- C5 counterexample: the claim as frozen says no exception escapes in
install mode and provisioning is always reached, including on the Flatpak
path.  Three concrete install runs abort before provisioning, one per
uncaught error source: (1) Flatpak path, flatpak on PATH, install command
exits nonzero — the `subprocess.run(..., check=True)` at line 174 is
outside the `try` block, so the `CalledProcessError` escapes; (2)
non-Flatpak debian path with no invoked executable present (sudo
missing) — line 186 raises `FileNotFoundError`, which the
`except subprocess.CalledProcessError` handlers never catch; (3) arch
with an operator-supplied helper whose query-available output has no
version line — the up-to-date check called at line 413 raises
`UnboundLocalError` (a `NameError`), uncaught. -/
theorem install_abort_counterexample :
    ((main envFlatpakBroken argsFlatpak).fst = .exc .calledProcessError
      ∧ Event.provision ∉ (main envFlatpakBroken argsFlatpak).snd)
    ∧ ((main envMissingSudo argsPlain).fst = .exc .fileNotFound
      ∧ Event.provision ∉ (main envMissingSudo argsPlain).snd)
    ∧ ((main envArchNoVersion argsYay).fst = .exc .nameError
      ∧ Event.provision ∉ (main envArchNoVersion argsYay).snd) := by
  refine ⟨⟨?_, ?_⟩, ⟨?_, ?_⟩, ⟨?_, ?_⟩⟩
  · decide
  · decide
  · decide
  · decide
  · decide
  · decide

/-- C1: in install mode with the presence check true — if the distro is
arch and an operator-supplied helper was given, the up-to-date check is
consulted: true skips installation (the trace holds no run command) and
proceeds to provisioning, false falls through to the install procedure
and then provisions; in every other present case installation is skipped
unconditionally with no up-to-date check (the trace is exactly the
presence check followed by provisioning). -/
theorem install_mode_decision (env : Env) (args : Args)
    (hu : args.uninstall = false) (hp : env.installed = true) :
    ((computeDistro env args = "arch" ∧ args.aur_helper ≠ "") →
      (((is_vkbasalt_up_to_date_with_aur env args.aur_helper).fst
          = .ret true →
        main env args =
          (.ret (), .presenceCheck ::
            (is_vkbasalt_up_to_date_with_aur env args.aur_helper).snd
            ++ [.provision])
        ∧ runCmds (main env args).snd = [])
      ∧ ((is_vkbasalt_up_to_date_with_aur env args.aur_helper).fst
          = .ret false →
        (install_vkbasalt env (computeDistro env args) args.flatpak
            args.flatpak_pkg args.aur_helper).fst = .ret () →
        main env args =
          (.ret (), .presenceCheck ::
            (is_vkbasalt_up_to_date_with_aur env args.aur_helper).snd
            ++ (install_vkbasalt env (computeDistro env args) args.flatpak
              args.flatpak_pkg args.aur_helper).snd
            ++ [.provision]))))
    ∧ (¬(computeDistro env args = "arch" ∧ args.aur_helper ≠ "") →
        main env args = (.ret (), [.presenceCheck, .provision])) := by
  constructor
  · intro ha
    constructor
    · intro hq
      have hm : main env args =
          (.ret (), .presenceCheck ::
            (is_vkbasalt_up_to_date_with_aur env args.aur_helper).snd
            ++ [.provision]) := by
        unfold main
        rw [hu]
        rw [if_neg (by exact Bool.false_ne_true), if_pos hp, if_pos ha]
        simp only [hq]
      refine ⟨hm, ?_⟩
      rw [hm]
      rw [show ((PyResult.ret (), Event.presenceCheck ::
          (is_vkbasalt_up_to_date_with_aur env args.aur_helper).snd
          ++ [Event.provision]) :
          PyResult Unit × List Event).snd
        = Event.presenceCheck ::
          (is_vkbasalt_up_to_date_with_aur env args.aur_helper).snd
          ++ [Event.provision] from rfl]
      rw [runCmds_wrap]
      exact up2date_runCmds env args.aur_helper
    · intro hq hret
      unfold main
      rw [hu]
      rw [if_neg (by exact Bool.false_ne_true), if_pos hp, if_pos ha]
      simp only [hq, hret]
  · intro hna
    unfold main
    rw [hu]
    rw [if_neg (by exact Bool.false_ne_true), if_pos hp, if_neg hna]

/-- C1 witness: a present, non-arch install run skips installation with
no up-to-date check and still provisions. -/
theorem install_mode_decision_witness :
    main envPresentFedora argsPlain
      = (.ret (), [.presenceCheck, .provision]) :=
  (install_mode_decision envPresentFedora argsPlain rfl rfl).2 (by decide)

end Installer
